import Mathlib

/-!
Verification of the `MergeGeometryBlocks` node
(dask_geomodeling/geometry/merge.py).

A shallow embedding of the merge node: construction-time validation
(`MergeGeometryBlocks.init`), the static schema projection
(`MergeGeometryBlocks.columns`) and the response-combination function
(`MergeGeometryBlocks.process`), together with models of the external
primitives the source delegates to (pandas index-merge, shapely box
algebra).
-/

namespace DaskGeomodeling

/-! ## Python value and error model (for constructor validation) -/

/-- A Python value, as far as the constructor validation needs to
distinguish: strings versus anything that is not a string. -/
inductive PyVal where
  | str (s : String)
  | int (n : Int)
  | none
  deriving DecidableEq, Repr

/-- The Python exceptions the constructor of `MergeGeometryBlocks` can
raise: `TypeError`, `KeyError` and (from sequence indexing) `IndexError`. -/
inductive PyError where
  | typeError (msg : String)
  | keyError (msg : String)
  | indexError (msg : String)
  deriving DecidableEq, Repr

/-- Is this value a Python `str`? (`isinstance(v, str)`). -/
def PyVal.isStr : PyVal → Bool
  | .str _ => true
  | _ => false

/-- Python sequence indexing `xs[i]` on a tuple/list: raises `IndexError`
when `i` is out of range. -/
def pyGetItem (xs : List PyVal) (i : Nat) : Except PyError PyVal :=
  match xs.get? i with
  | some v => Except.ok v
  | Option.none => Except.error (PyError.indexError "tuple index out of range")

/-! ## Geometry / response model -/

/-- An axis-aligned bounding box `(minx, miny, maxx, maxy)`, with exact
integer coordinates standing in for the floats of the source. -/
abbrev PyBox : Type := Int × Int × Int × Int

/-- Model of the shapely rectangle geometry produced by
`box(minx, miny, maxx, maxy)` and by intersecting two such rectangles:
it is determined by the four bounds.  The intersection of the rectangles
`a` and `b` has bounds `(max of mins, min of maxs)`; it is empty exactly
when a max-of-mins strictly exceeds the corresponding min-of-maxs
(rectangles touching along an edge or corner give a degenerate but
non-empty geometry). -/
structure BoxGeom where
  minx : Int
  miny : Int
  maxx : Int
  maxy : Int
  deriving DecidableEq, Repr

/-- Model of `box(*a).intersection(box(*b))` for axis-aligned boxes:
bounds are componentwise max of mins / min of maxs. -/
def boxIntersection (a b : PyBox) : BoxGeom :=
  { minx := max a.1 b.1
    miny := max a.2.1 b.2.1
    maxx := min a.2.2.1 b.2.2.1
    maxy := min a.2.2.2 b.2.2.2 }

/-- Model of `box(*a).union(box(*b))` for axis-aligned boxes, as far as
its `.bounds` is ever consulted: the smallest box covering both
operands. -/
def boxUnion (a b : PyBox) : BoxGeom :=
  { minx := min a.1 b.1
    miny := min a.2.1 b.2.1
    maxx := max a.2.2.1 b.2.2.1
    maxy := max a.2.2.2 b.2.2.2 }

/-- shapely `.is_empty` for the (possibly degenerate) rectangle geometry:
empty exactly when the bounds cross strictly on some axis. -/
def BoxGeom.is_empty (g : BoxGeom) : Bool :=
  g.maxx < g.minx || g.maxy < g.miny

/-- shapely `.bounds` of a non-empty rectangle geometry. -/
def BoxGeom.bounds (g : BoxGeom) : PyBox :=
  (g.minx, g.miny, g.maxx, g.maxy)

/-- A response, covering both shapes the node produces: `features` is the
row index of the attribute table (INTERSECTS/CENTROID modes), `extent` the
optional bounding box (EXTENT mode; `None` is the absence marker and a
present 4-tuple is always truthy), `projection` the CRS token. -/
structure GeoResponse where
  features : List Int
  extent : Option PyBox
  projection : String
  deriving DecidableEq, Repr

/-! ## pandas index-merge model

`pd.merge(left, right, how=..., left_index=True, right_index=True)`
matches rows whose index values are equal.  Each left key matching `m`
right rows yields `m` result rows (or one null-filled row when `m = 0`
and the key is kept by the join discipline); we model the resulting row
index. -/

/-- Result index of a pandas left join by index: every left key is kept,
replicated once per matching right row (at least once). -/
def leftJoinKeys (keep : List Int) (other : List Int) : List Int :=
  match keep with
  | [] => []
  | i :: rest => List.replicate (max (other.count i) 1) i ++ leftJoinKeys rest other

/-- Result index of a pandas inner join by index: left keys replicated
once per matching right row (dropped when unmatched). -/
def innerJoinKeys (l : List Int) (r : List Int) : List Int :=
  match l with
  | [] => []
  | i :: rest => List.replicate (r.count i) i ++ innerJoinKeys rest r

/-- Result index of a pandas outer join by index: the left-join rows
followed by the right rows whose key has no left match. -/
def outerJoinKeys (l : List Int) (r : List Int) : List Int :=
  leftJoinKeys l r ++ r.filter (fun i => !l.contains i)

/-- Result index of `pd.merge(..., how=how, left_index=True,
right_index=True)` for the four join disciplines the node can configure. -/
def pdMergeIndex (how : String) (l : List Int) (r : List Int) : List Int :=
  if how = "left" then leftJoinKeys l r
  else if how = "right" then leftJoinKeys r l
  else if how = "inner" then innerJoinKeys l r
  else if how = "outer" then outerJoinKeys l r
  else []

/-! ## The merge node -/

namespace MergeGeometryBlocks

/-- The class attribute `allow_how_joins`. -/
def allow_how_joins : List String := ["left", "right", "outer", "inner"]

/-- The validated configuration stored by `super().__init__`. -/
structure Config where
  how : String
  suffixes : List PyVal
  deriving DecidableEq, Repr

/-- Python repr of a string (single quotes). -/
def pyQuote (s : String) : String := "\x27" ++ s ++ "\x27"

/-- The message of the `KeyError` raised for an unrecognized join kind:
the quoted offending value, the fixed phrase `is not part of the list of
operations:` and the tuple of valid join kinds, formatted the way Python
prints them. -/
def keyErrorMessage (how : String) : String :=
  pyQuote how ++ " is not part of the list of operations: " ++
    "(\x27left\x27, \x27right\x27, \x27outer\x27, \x27inner\x27)"

/-- The constructor validation of `MergeGeometryBlocks` (its
dunder init method): the two `isinstance(_, GeometryBlock)`
checks (modelled by the two booleans), the membership check on `how`, and
the suffix validation `not isinstance(suffixes[0], str) or
not isinstance(suffixes[1], str) or len(suffixes) != 2`, with Python's
left-to-right short-circuit evaluation (so indexing happens before the
length test and can raise `IndexError`). -/
def init (leftIsGB rightIsGB : Bool) (how : String) (suffixes : List PyVal) :
    Except PyError Config :=
  if !leftIsGB then Except.error (PyError.typeError "object is not allowed")
  else if !rightIsGB then Except.error (PyError.typeError "object is not allowed")
  else if !(allow_how_joins.contains how) then
    Except.error (PyError.keyError (keyErrorMessage how))
  else
    match pyGetItem suffixes 0 with
    | Except.error e => Except.error e
    | Except.ok s0 =>
      if !s0.isStr then Except.error (PyError.typeError "object is not allowed")
      else
        match pyGetItem suffixes 1 with
        | Except.error e => Except.error e
        | Except.ok s1 =>
          if !s1.isStr then Except.error (PyError.typeError "object is not allowed")
          else if suffixes.length ≠ 2 then
            Except.error (PyError.typeError "object is not allowed")
          else Except.ok { how := how, suffixes := suffixes }

/-- The upstream column sets and the node configuration, as read by the
`columns` property (`self.left.columns`, `self.right.columns`,
`self.how`, `self.suffixes`). -/
structure NodeView where
  leftCols : Finset String
  rightCols : Finset String
  how : String
  suffixes : String × String

/-- The `columns` property: start from the symmetric difference
`left ^ right`, then for every overlapping column name union in both
suffixed variants (the Python `for col in overlap` loop, folded over an
enumeration of the overlap set). -/
def columns (n : NodeView) : Finset String :=
  ((n.leftCols ∩ n.rightCols).sort (· ≤ ·)).foldl
    (fun result col => result ∪ {col ++ n.suffixes.1, col ++ n.suffixes.2})
    (symmDiff n.leftCols n.rightCols)

/-- The `process_kwargs` bundle built by `get_sources_and_requests`. -/
structure ProcessKwargs where
  how : String
  suffixes : String × String
  mode : String
  deriving DecidableEq, Repr

/-- The static `process` method: branch on the request mode, then (for
EXTENT) on the join kind.  A mode outside the three recognized ones, or
(in EXTENT mode) a join kind outside the four recognized ones, matches no
branch and the Python function returns `None`.  `left["extent"] and
right["extent"]` is modelled by presence of the optional boxes (an extent
is `None` or a non-empty tuple, so truthiness is presence). -/
def process (left right : GeoResponse) (kwargs : ProcessKwargs) :
    Option GeoResponse :=
  let mode := kwargs.mode
  let how := kwargs.how
  let projection := left.projection
  if mode = "intersects" ∨ mode = "centroid" then
    let merged := pdMergeIndex how left.features right.features
    some { features := merged, extent := Option.none, projection := projection }
  else if mode = "extent" then
    if how = "left" then some left
    else if how = "right" then some right
    else if how = "inner" then
      let values : Option PyBox :=
        match left.extent, right.extent with
        | some le, some re =>
          let extent := boxIntersection le re
          if !extent.is_empty then some extent.bounds else Option.none
        | _, _ => Option.none
      some { features := [], extent := values, projection := projection }
    else if how = "outer" then
      let values : Option PyBox :=
        match left.extent, right.extent with
        | some le, some re => some (boxUnion le re).bounds
        | some le, Option.none => some le
        | Option.none, some re => some re
        | Option.none, Option.none => Option.none
      some { features := [], extent := values, projection := projection }
    else Option.none
  else Option.none

end MergeGeometryBlocks

/-! ## Helper lemmas -/

namespace MergeGeometryBlocks

/-- Folding the suffix-union step of `columns` over any enumeration of the
overlap adds exactly the two suffixed images of that enumeration. -/
theorem foldl_union_suffixed (s1 s2 : String) (cols : List String) :
    ∀ (init : Finset String),
      cols.foldl (fun result col => result ∪ {col ++ s1, col ++ s2}) init =
        init ∪ cols.toFinset.image (fun c => c ++ s1) ∪
          cols.toFinset.image (fun c => c ++ s2) := by
  induction cols with
  | nil => intro init; simp
  | cons c cs ih =>
    intro init
    rw [List.foldl_cons, ih]
    ext x
    simp only [Finset.mem_union, Finset.mem_image, Finset.mem_insert,
      Finset.mem_singleton, List.toFinset_cons, List.mem_toFinset]
    aesop

/-- A key occurs in the left-join row index exactly when it occurs in the
kept (left) table. -/
theorem mem_leftJoinKeys (l r : List Int) (x : Int) :
    x ∈ leftJoinKeys l r ↔ x ∈ l := by
  induction l with
  | nil => simp [leftJoinKeys]
  | cons i rest ih =>
    have hmax : max (r.count i) 1 ≠ 0 :=
      Nat.one_le_iff_ne_zero.mp (Nat.le_max_right _ _)
    simp [leftJoinKeys, List.mem_replicate, ih, hmax]

/-- A key occurs in the inner-join row index exactly when it occurs in
both tables. -/
theorem mem_innerJoinKeys (l r : List Int) (x : Int) :
    x ∈ innerJoinKeys l r ↔ x ∈ l ∧ x ∈ r := by
  induction l with
  | nil => simp [innerJoinKeys]
  | cons i rest ih =>
    have hc : (r.count i ≠ 0) ↔ i ∈ r := by
      rw [Ne, List.count_eq_zero]; exact not_not
    simp only [innerJoinKeys, List.mem_append, List.mem_replicate, ih, hc,
      List.mem_cons]
    aesop

/-- A key occurs in the outer-join row index exactly when it occurs in
either table. -/
theorem mem_outerJoinKeys (l r : List Int) (x : Int) :
    x ∈ outerJoinKeys l r ↔ x ∈ l ∨ x ∈ r := by
  by_cases hx : x ∈ l
  · simp [outerJoinKeys, List.mem_append, mem_leftJoinKeys, hx]
  · simp [outerJoinKeys, List.mem_append, mem_leftJoinKeys, hx,
      List.mem_filter, List.contains]

/-- Closed form of the `columns` property: symmetric difference plus the
two suffixed images of the overlap. -/
theorem columns_closed_form (n : NodeView) :
    columns n = symmDiff n.leftCols n.rightCols ∪
      (n.leftCols ∩ n.rightCols).image (fun c => c ++ n.suffixes.1) ∪
      (n.leftCols ∩ n.rightCols).image (fun c => c ++ n.suffixes.2) := by
  unfold columns
  rw [foldl_union_suffixed, Finset.sort_toFinset]

theorem pdMergeIndex_left_eq (a b : List Int) :
    pdMergeIndex "left" a b = leftJoinKeys a b := rfl

theorem pdMergeIndex_right_eq (a b : List Int) :
    pdMergeIndex "right" a b = leftJoinKeys b a := rfl

theorem pdMergeIndex_inner_eq (a b : List Int) :
    pdMergeIndex "inner" a b = innerJoinKeys a b := rfl

theorem pdMergeIndex_outer_eq (a b : List Int) :
    pdMergeIndex "outer" a b = outerJoinKeys a b := rfl

/-- In the two attribute-table modes, `process` returns the pandas merge
of the two feature tables together with the left projection, whatever the
join kind. -/
theorem process_table_mode (how : String) (s : String × String)
    (l r : GeoResponse) (mode : String)
    (hmode : mode = "intersects" ∨ mode = "centroid") :
    process l r ⟨how, s, mode⟩ =
      some { features := pdMergeIndex how l.features r.features,
             extent := Option.none, projection := l.projection } := by
  rcases hmode with h | h <;> subst h <;> rfl

/-- Reduction of `process` in EXTENT mode with join kind `inner`. -/
theorem process_extent_inner (l r : GeoResponse) (s : String × String) :
    process l r ⟨"inner", s, "extent"⟩ =
      some { features := [],
             extent :=
               match l.extent, r.extent with
               | some le, some re =>
                 if !(boxIntersection le re).is_empty
                 then some (boxIntersection le re).bounds
                 else Option.none
               | _, _ => Option.none,
             projection := l.projection } := rfl

/-- Reduction of `process` in EXTENT mode with join kind `outer`. -/
theorem process_extent_outer (l r : GeoResponse) (s : String × String) :
    process l r ⟨"outer", s, "extent"⟩ =
      some { features := [],
             extent :=
               match l.extent, r.extent with
               | some le, some re => some (boxUnion le re).bounds
               | some le, Option.none => some le
               | Option.none, some re => some re
               | Option.none, Option.none => Option.none,
             projection := l.projection } := rfl

/-- Appending on the left preserves the infix relation. -/
theorem infix_extend_left {l c : List Char} (pre : List Char)
    (h : l <:+: c) : l <:+: pre ++ c := by
  obtain ⟨s, t, rfl⟩ := h
  exact ⟨pre ++ s, t, by simp⟩

end MergeGeometryBlocks

namespace Claims

open MergeGeometryBlocks

/-- C4: for every pair of upstream column sets and every suffixes pair,
`columns` is exactly the symmetric difference of the two column sets
unioned with, for every overlapping name, the two suffixed names; and the
result does not depend on the configured join kind. -/
theorem claimC4_columns_schema (l r : Finset String) (s : String × String)
    (how : String) :
    columns ⟨l, r, how, s⟩ =
      symmDiff l r ∪ (l ∩ r).image (fun c => c ++ s.1) ∪
        (l ∩ r).image (fun c => c ++ s.2) ∧
    ∀ how2 : String, columns ⟨l, r, how, s⟩ = columns ⟨l, r, how2, s⟩ := by
  refine ⟨columns_closed_form ⟨l, r, how, s⟩, fun how2 => ?_⟩
  rw [columns_closed_form, columns_closed_form]

/-- C8: swapping the two upstreams and simultaneously swapping the two
suffixes leaves the `columns` set unchanged. -/
theorem claimC8_columns_symm (l r : Finset String) (s0 s1 : String)
    (how : String) :
    columns ⟨l, r, how, (s0, s1)⟩ = columns ⟨r, l, how, (s1, s0)⟩ := by
  rw [columns_closed_form, columns_closed_form]
  simp only [symmDiff_comm l r, Finset.inter_comm l r]
  ext x
  simp only [Finset.mem_union]
  tauto

/-- C3: in the two attribute-table modes, for feature tables with nonempty
duplicate-free indices, the result index set is the left index set for a
left join, the right index set for a right join, their intersection for an
inner join and their union for an outer join. -/
theorem claimC3_join_row_semantics (mode : String) (l r : GeoResponse)
    (s : String × String)
    (hmode : mode = "intersects" ∨ mode = "centroid")
    (hLnd : l.features.Nodup) (hRnd : r.features.Nodup)
    (hL0 : l.features ≠ []) (hR0 : r.features ≠ []) :
    (process l r ⟨"left", s, mode⟩).map (fun p => p.features.toFinset) =
      some l.features.toFinset ∧
    (process l r ⟨"right", s, mode⟩).map (fun p => p.features.toFinset) =
      some r.features.toFinset ∧
    (process l r ⟨"inner", s, mode⟩).map (fun p => p.features.toFinset) =
      some (l.features.toFinset ∩ r.features.toFinset) ∧
    (process l r ⟨"outer", s, mode⟩).map (fun p => p.features.toFinset) =
      some (l.features.toFinset ∪ r.features.toFinset) := by
  rw [process_table_mode _ _ _ _ _ hmode, process_table_mode _ _ _ _ _ hmode,
    process_table_mode _ _ _ _ _ hmode, process_table_mode _ _ _ _ _ hmode,
    pdMergeIndex_left_eq, pdMergeIndex_right_eq, pdMergeIndex_inner_eq,
    pdMergeIndex_outer_eq]
  refine ⟨?_, ?_, ?_, ?_⟩ <;>
    · rw [Option.map_some']
      congr 1
      ext x
      simp [mem_leftJoinKeys, mem_innerJoinKeys, mem_outerJoinKeys]

/-- Concrete left table with index `[1, 2]`. -/
def tabL : GeoResponse := ⟨[1, 2], Option.none, "EPSG:28992"⟩

/-- Concrete right table with index `[2, 3]`. -/
def tabR : GeoResponse := ⟨[2, 3], Option.none, "EPSG:28992"⟩

theorem claimC3_witness :
    ((("intersects" : String) = "intersects" ∨
        ("intersects" : String) = "centroid") ∧
      tabL.features.Nodup ∧ tabR.features.Nodup ∧
      tabL.features ≠ [] ∧ tabR.features ≠ []) ∧
    ((process tabL tabR ⟨"left", ("", "_right"), "intersects"⟩).map
        (fun p => p.features.toFinset) = some tabL.features.toFinset ∧
      (process tabL tabR ⟨"right", ("", "_right"), "intersects"⟩).map
        (fun p => p.features.toFinset) = some tabR.features.toFinset ∧
      (process tabL tabR ⟨"inner", ("", "_right"), "intersects"⟩).map
        (fun p => p.features.toFinset) =
        some (tabL.features.toFinset ∩ tabR.features.toFinset) ∧
      (process tabL tabR ⟨"outer", ("", "_right"), "intersects"⟩).map
        (fun p => p.features.toFinset) =
        some (tabL.features.toFinset ∪ tabR.features.toFinset)) :=
  ⟨⟨Or.inl rfl, by decide, by decide, by decide, by decide⟩,
    claimC3_join_row_semantics "intersects" tabL tabR ("", "_right")
      (Or.inl rfl) (by decide) (by decide) (by decide) (by decide)⟩

/-- C10: a request mode outside the three recognized ones matches no
branch of `process`, which therefore returns `None`, whatever the two
responses and the configured join kind. -/
theorem claimC10_unknown_mode (l r : GeoResponse) (kw : ProcessKwargs)
    (h1 : kw.mode ≠ "intersects") (h2 : kw.mode ≠ "centroid")
    (h3 : kw.mode ≠ "extent") :
    process l r kw = Option.none := by
  obtain ⟨how, s, mode⟩ := kw
  simp only [ProcessKwargs.mk.injEq] at h1 h2 h3 ⊢
  unfold process
  rw [if_neg (by tauto), if_neg h3]

theorem claimC10_witness :
    ((("bogus" : String) ≠ "intersects") ∧ (("bogus" : String) ≠ "centroid") ∧
      (("bogus" : String) ≠ "extent")) ∧
    process tabL tabR ⟨"inner", ("", "_right"), "bogus"⟩ = Option.none :=
  ⟨⟨by decide, by decide, by decide⟩,
    claimC10_unknown_mode tabL tabR ⟨"inner", ("", "_right"), "bogus"⟩
      (by decide) (by decide) (by decide)⟩

/-- C1 counterexample: in EXTENT mode with join kind `right`, `process`
returns the right response verbatim, so at co-located responses with
different projections the combined projection is not the left one. -/
theorem claimC1_counterexample :
    ¬ ((process ⟨[], Option.none, "EPSG:4326"⟩ ⟨[], Option.none, "EPSG:28992"⟩
          ⟨"right", ("", "_right"), "extent"⟩).map GeoResponse.projection =
        some "EPSG:4326") := by decide

/-- C1 (amended): whenever `process` returns a response, its projection
is the left projection — except in EXTENT mode with join kind `right`,
where the right response is returned unchanged and the projection is the
right one. -/
theorem claimC1_projection_amended (l r : GeoResponse) (kw : ProcessKwargs)
    (res : GeoResponse) (hres : process l r kw = some res) :
    (¬(kw.mode = "extent" ∧ kw.how = "right") →
      res.projection = l.projection) ∧
    (kw.mode = "extent" ∧ kw.how = "right" → res = r) := by
  obtain ⟨how, s, mode⟩ := kw
  unfold process at hres
  simp only at hres ⊢
  split at hres
  · rename_i hcond
    simp only [Option.some.injEq] at hres
    subst hres
    refine ⟨fun _ => rfl, fun hm => absurd hcond ?_⟩
    rcases hm with ⟨hm, _⟩
    subst hm
    decide
  · rename_i hcond
    split at hres
    · rename_i hext
      split at hres
      · rename_i hleft
        simp only [Option.some.injEq] at hres
        subst hres
        exact ⟨fun _ => rfl, fun hm => absurd (hm.2.symm.trans hleft) (by decide)⟩
      · split at hres
        · rename_i hright
          simp only [Option.some.injEq] at hres
          subst hres
          exact ⟨fun hn => absurd ⟨hext, hright⟩ hn, fun _ => rfl⟩
        · rename_i hright
          split at hres
          · simp only [Option.some.injEq] at hres
            subst hres
            exact ⟨fun _ => rfl, fun hm => absurd hm.2 hright⟩
          · split at hres
            · simp only [Option.some.injEq] at hres
              subst hres
              exact ⟨fun _ => rfl, fun hm => absurd hm.2 hright⟩
            · exact absurd hres (by simp)
    · exact absurd hres (by simp)

theorem claimC1_amended_witness :
    (¬((("intersects" : String) = "extent") ∧
        (("inner" : String) = "right")) →
      ({ features := [2], extent := Option.none, projection := "EPSG:28992" }
          : GeoResponse).projection = tabL.projection) ∧
    ((("intersects" : String) = "extent") ∧ (("inner" : String) = "right") →
      ({ features := [2], extent := Option.none, projection := "EPSG:28992" }
          : GeoResponse) = tabR) :=
  claimC1_projection_amended tabL tabR ⟨"inner", ("", "_right"), "intersects"⟩
    ⟨[2], Option.none, "EPSG:28992"⟩ (by decide)

/-- C5: in EXTENT mode, when at least one side has no extent, an inner
join yields no extent, and an outer join yields the present side's extent
verbatim (or no extent when both are absent). -/
theorem claimC5_extent_absent (l r : GeoResponse) (s : String × String)
    (habs : l.extent = Option.none ∨ r.extent = Option.none) :
    process l r ⟨"inner", s, "extent"⟩ =
      some { features := [], extent := Option.none,
             projection := l.projection } ∧
    process l r ⟨"outer", s, "extent"⟩ =
      some { features := [], extent := (l.extent <|> r.extent),
             projection := l.projection } := by
  rw [process_extent_inner, process_extent_outer]
  rcases hl : l.extent with _ | le <;> rcases hr : r.extent with _ | re <;>
    simp_all

theorem claimC5_witness :
    ((⟨[], Option.none, "EPSG:4326"⟩ : GeoResponse).extent = Option.none ∨
      (⟨[], some (2, 3, 6, 7), "EPSG:4326"⟩ : GeoResponse).extent =
        Option.none) ∧
    (process ⟨[], Option.none, "EPSG:4326"⟩ ⟨[], some (2, 3, 6, 7), "EPSG:4326"⟩
        ⟨"inner", ("", "_right"), "extent"⟩ =
      some { features := [], extent := Option.none,
             projection := "EPSG:4326" } ∧
      process ⟨[], Option.none, "EPSG:4326"⟩ ⟨[], some (2, 3, 6, 7), "EPSG:4326"⟩
        ⟨"outer", ("", "_right"), "extent"⟩ =
      some { features := [],
             extent := ((Option.none : Option PyBox) <|> some (2, 3, 6, 7)),
             projection := "EPSG:4326" }) :=
  ⟨Or.inl rfl,
    claimC5_extent_absent ⟨[], Option.none, "EPSG:4326"⟩
      ⟨[], some (2, 3, 6, 7), "EPSG:4326"⟩ ("", "_right") (Or.inl rfl)⟩

/-- C6: in EXTENT mode with an inner join and both extents present, a
(strictly) disjoint pair of boxes yields no extent rather than a
degenerate box, and an overlapping pair yields the geometric intersection
box (componentwise max of mins and min of maxs). -/
theorem claimC6_inner_extent (l r : GeoResponse) (s : String × String)
    (a b : PyBox) (hl : l.extent = some a) (hr : r.extent = some b) :
    ((a.2.2.1 < b.1 ∨ b.2.2.1 < a.1 ∨ a.2.2.2 < b.2.1 ∨ b.2.2.2 < a.2.1) →
      process l r ⟨"inner", s, "extent"⟩ =
        some { features := [], extent := Option.none,
               projection := l.projection }) ∧
    ((max a.1 b.1 ≤ min a.2.2.1 b.2.2.1 ∧
        max a.2.1 b.2.1 ≤ min a.2.2.2 b.2.2.2) →
      process l r ⟨"inner", s, "extent"⟩ =
        some { features := [],
               extent := some (max a.1 b.1, max a.2.1 b.2.1,
                 min a.2.2.1 b.2.2.1, min a.2.2.2 b.2.2.2),
               projection := l.projection }) := by
  rw [process_extent_inner]
  simp only [hl, hr]
  constructor
  · intro hdisj
    have hempty : (boxIntersection a b).is_empty = true := by
      simp only [boxIntersection, BoxGeom.is_empty, Bool.or_eq_true,
        decide_eq_true_eq]
      omega
    simp [hempty]
  · intro hov
    have hempty : (boxIntersection a b).is_empty = false := by
      simp only [boxIntersection, BoxGeom.is_empty, Bool.or_eq_false_iff,
        decide_eq_false_iff_not, not_lt]
      exact ⟨hov.1, hov.2⟩
    simp only [boxIntersection] at hempty
    simp [hempty, boxIntersection, BoxGeom.bounds]

theorem claimC6_witness :
    ((((0, 0, 1, 1) : PyBox).2.2.1 < ((10, 10, 11, 11) : PyBox).1 ∨
        ((10, 10, 11, 11) : PyBox).2.2.1 < ((0, 0, 1, 1) : PyBox).1 ∨
        ((0, 0, 1, 1) : PyBox).2.2.2 < ((10, 10, 11, 11) : PyBox).2.1 ∨
        ((10, 10, 11, 11) : PyBox).2.2.2 < ((0, 0, 1, 1) : PyBox).2.1) ∧
      process ⟨[], some (0, 0, 1, 1), "EPSG:4326"⟩
          ⟨[], some (10, 10, 11, 11), "EPSG:4326"⟩
          ⟨"inner", ("", "_right"), "extent"⟩ =
        some { features := [], extent := Option.none,
               projection := "EPSG:4326" }) ∧
    ((max ((0, 0, 10, 10) : PyBox).1 ((5, 5, 15, 15) : PyBox).1 ≤
        min ((0, 0, 10, 10) : PyBox).2.2.1 ((5, 5, 15, 15) : PyBox).2.2.1 ∧
        max ((0, 0, 10, 10) : PyBox).2.1 ((5, 5, 15, 15) : PyBox).2.1 ≤
        min ((0, 0, 10, 10) : PyBox).2.2.2 ((5, 5, 15, 15) : PyBox).2.2.2) ∧
      process ⟨[], some (0, 0, 10, 10), "EPSG:4326"⟩
          ⟨[], some (5, 5, 15, 15), "EPSG:4326"⟩
          ⟨"inner", ("", "_right"), "extent"⟩ =
        some { features := [],
               extent := some (max ((0, 0, 10, 10) : PyBox).1
                   ((5, 5, 15, 15) : PyBox).1,
                 max ((0, 0, 10, 10) : PyBox).2.1 ((5, 5, 15, 15) : PyBox).2.1,
                 min ((0, 0, 10, 10) : PyBox).2.2.1
                   ((5, 5, 15, 15) : PyBox).2.2.1,
                 min ((0, 0, 10, 10) : PyBox).2.2.2
                   ((5, 5, 15, 15) : PyBox).2.2.2),
               projection := "EPSG:4326" }) :=
  ⟨⟨by decide,
      (claimC6_inner_extent ⟨[], some (0, 0, 1, 1), "EPSG:4326"⟩
          ⟨[], some (10, 10, 11, 11), "EPSG:4326"⟩ ("", "_right")
          (0, 0, 1, 1) (10, 10, 11, 11) rfl rfl).1 (by decide)⟩,
    ⟨by decide,
      (claimC6_inner_extent ⟨[], some (0, 0, 10, 10), "EPSG:4326"⟩
          ⟨[], some (5, 5, 15, 15), "EPSG:4326"⟩ ("", "_right")
          (0, 0, 10, 10) (5, 5, 15, 15) rfl rfl).2 (by decide)⟩⟩

/-- C9: in EXTENT mode with an inner join, boxes that meet only along an
edge or at a corner produce a degenerate (zero-area) extent — the bounds
of the degenerate intersection geometry — not the absence marker, because
only a strictly empty intersection is mapped to `None`. -/
theorem claimC9_touching_boxes (l r : GeoResponse) (s : String × String)
    (a b : PyBox) (hl : l.extent = some a) (hr : r.extent = some b)
    (hmeet : max a.1 b.1 ≤ min a.2.2.1 b.2.2.1 ∧
      max a.2.1 b.2.1 ≤ min a.2.2.2 b.2.2.2)
    (hdegen : max a.1 b.1 = min a.2.2.1 b.2.2.1 ∨
      max a.2.1 b.2.1 = min a.2.2.2 b.2.2.2) :
    process l r ⟨"inner", s, "extent"⟩ =
      some { features := [],
             extent := some (max a.1 b.1, max a.2.1 b.2.1,
               min a.2.2.1 b.2.2.1, min a.2.2.2 b.2.2.2),
             projection := l.projection } ∧
    (max a.1 b.1 = min a.2.2.1 b.2.2.1 ∨
      max a.2.1 b.2.1 = min a.2.2.2 b.2.2.2) := by
  refine ⟨?_, hdegen⟩
  rw [process_extent_inner]
  simp only [hl, hr]
  have hempty : (boxIntersection a b).is_empty = false := by
    simp only [boxIntersection, BoxGeom.is_empty, Bool.or_eq_false_iff,
      decide_eq_false_iff_not, not_lt]
    exact ⟨hmeet.1, hmeet.2⟩
  simp only [boxIntersection] at hempty
  simp [hempty, boxIntersection, BoxGeom.bounds]

theorem claimC9_witness :
    ((max ((0, 0, 10, 10) : PyBox).1 ((10, 0, 20, 10) : PyBox).1 ≤
        min ((0, 0, 10, 10) : PyBox).2.2.1 ((10, 0, 20, 10) : PyBox).2.2.1 ∧
      max ((0, 0, 10, 10) : PyBox).2.1 ((10, 0, 20, 10) : PyBox).2.1 ≤
        min ((0, 0, 10, 10) : PyBox).2.2.2 ((10, 0, 20, 10) : PyBox).2.2.2) ∧
      (max ((0, 0, 10, 10) : PyBox).1 ((10, 0, 20, 10) : PyBox).1 =
        min ((0, 0, 10, 10) : PyBox).2.2.1 ((10, 0, 20, 10) : PyBox).2.2.1 ∨
      max ((0, 0, 10, 10) : PyBox).2.1 ((10, 0, 20, 10) : PyBox).2.1 =
        min ((0, 0, 10, 10) : PyBox).2.2.2 ((10, 0, 20, 10) : PyBox).2.2.2)) ∧
    (process ⟨[], some (0, 0, 10, 10), "EPSG:4326"⟩
        ⟨[], some (10, 0, 20, 10), "EPSG:4326"⟩
        ⟨"inner", ("", "_right"), "extent"⟩ =
      some { features := [],
             extent := some (max ((0, 0, 10, 10) : PyBox).1
                 ((10, 0, 20, 10) : PyBox).1,
               max ((0, 0, 10, 10) : PyBox).2.1 ((10, 0, 20, 10) : PyBox).2.1,
               min ((0, 0, 10, 10) : PyBox).2.2.1
                 ((10, 0, 20, 10) : PyBox).2.2.1,
               min ((0, 0, 10, 10) : PyBox).2.2.2
                 ((10, 0, 20, 10) : PyBox).2.2.2),
             projection := "EPSG:4326" } ∧
      (max ((0, 0, 10, 10) : PyBox).1 ((10, 0, 20, 10) : PyBox).1 =
        min ((0, 0, 10, 10) : PyBox).2.2.1 ((10, 0, 20, 10) : PyBox).2.2.1 ∨
      max ((0, 0, 10, 10) : PyBox).2.1 ((10, 0, 20, 10) : PyBox).2.1 =
        min ((0, 0, 10, 10) : PyBox).2.2.2 ((10, 0, 20, 10) : PyBox).2.2.2)) :=
  ⟨⟨by decide, by decide⟩,
    claimC9_touching_boxes ⟨[], some (0, 0, 10, 10), "EPSG:4326"⟩
      ⟨[], some (10, 0, 20, 10), "EPSG:4326"⟩ ("", "_right")
      (0, 0, 10, 10) (10, 0, 20, 10) rfl rfl (by decide) (by decide)⟩

/-- C7: a join kind outside the recognized set is rejected at
construction (whatever the suffixes argument), and the message of the
raised error enumerates all four valid join kinds. -/
theorem claimC7_invalid_how (how : String) (suffixes : List PyVal)
    (h : how ∉ allow_how_joins) :
    init true true how suffixes =
      Except.error (PyError.keyError (keyErrorMessage how)) ∧
    ∀ k ∈ allow_how_joins, k.data <:+: (keyErrorMessage how).data := by
  have hc : allow_how_joins.contains how = false := by
    simp [List.contains, h]
  constructor
  · unfold init
    rw [hc]
    rfl
  · intro k hk
    have hsplit : (keyErrorMessage how).data =
        (pyQuote how ++ " is not part of the list of operations: ").data ++
          ("(\x27left\x27, \x27right\x27, \x27outer\x27, \x27inner\x27)"
            : String).data := by
      simp [keyErrorMessage, String.data_append]
    rw [hsplit]
    apply infix_extend_left
    fin_cases hk <;> decide

theorem claimC7_witness :
    (("bogus" : String) ∉ allow_how_joins) ∧
    (init true true "bogus" [PyVal.str "a", PyVal.str "b"] =
      Except.error (PyError.keyError (keyErrorMessage "bogus")) ∧
    ∀ k ∈ allow_how_joins, k.data <:+: (keyErrorMessage "bogus").data) :=
  ⟨by decide, claimC7_invalid_how "bogus" [PyVal.str "a", PyVal.str "b"]
    (by decide)⟩

/-- C2: the failing half of the suffix validation.  With
`suffixes=("a",)` the constructor evaluates `suffixes[1]` before the
length test and raises `IndexError`, not the `TypeError` the validation
block was written to raise; two-element string suffixes are accepted. -/
theorem claimC2_short_suffixes :
    init true true "inner" [PyVal.str "a"] =
      Except.error (PyError.indexError "tuple index out of range") ∧
    (∀ m : String, init true true "inner" [PyVal.str "a"] ≠
      Except.error (PyError.typeError m)) ∧
    ∀ s0 s1 : String, init true true "inner" [PyVal.str s0, PyVal.str s1] =
      Except.ok { how := "inner", suffixes := [PyVal.str s0, PyVal.str s1] } := by
  refine ⟨rfl, ?_, fun s0 s1 => rfl⟩
  intro m he
  rw [show init true true "inner" [PyVal.str "a"] =
      Except.error (PyError.indexError "tuple index out of range")
    from rfl] at he
  simp at he

end Claims

end DaskGeomodeling
